import Mathlib

/-!
Verification of the interior-layout genetic optimizer
(`backend/app/modules/interior/{geometry,constraints,fitness,optimizer}.py`).

The Python modules delegate all planar-geometry primitives (intersection
test, intersection area, containment, centroid, boundary distance, bounds)
to the shapely library.  The embedding therefore abstracts the shapely
layer as a `GeoBackend` record of primitive operations on an abstract
polygon type, translates every repository function over that record, and
instantiates the record with an exact rational axis-aligned-rectangle
implementation (`rectBackend`) for concrete evaluations: every polygon the
optimizer builds is an axis-aligned rectangle, because furniture rotations
are drawn from the discrete set {0, 90, 180, 270}.

Numbers are embedded as exact rationals (`ℚ`); Python floats carry the
same values at every literal used here.  Calls into the `random` module
are made explicit: each repository function that draws randomness takes
the drawn values as extra arguments (a stream), and theorems constrain
them to the ranges the corresponding `random` call guarantees.
`random.randint(a, b)` raises `ValueError` when `a > b`; that call is
embedded as an `Option`, with `none` standing for the raised exception.
-/

/-- One furniture record as consumed by the optimizer: the dict keys
`width`, `depth` and `rotatable` (default `True`) of
`backend/app/api/endpoints/interior.py`; `id`, `height` and `category`
play no role in any function verified here. -/
structure FurnitureItem where
  width : ℚ
  depth : ℚ
  rotatable : Bool
deriving DecidableEq, Repr

/-- One gene of a candidate layout: the Python tuple `(x, y, rot)` built
by `GeneticOptimizer.create_individual`.  Rotation is an integer drawn
from {0, 90, 180, 270}. -/
structure Placement where
  x : ℚ
  y : ℚ
  rot : Int
deriving DecidableEq, Repr

/-- The shapely primitives used by `geometry.py`, abstracted over the
polygon representation `α`:
`intersects a b` is `a.intersects(b)`;
`interArea a b` is `a.intersection(b).area`;
`containsP c i` is `c.contains(i)`;
`area a` is `a.area`;
`centroid a` is `a.centroid` as an `(x, y)` pair;
`boundaryDist room p` is `room_poly.boundary.distance(Point(p))`;
`bounds a` is `a.bounds`, i.e. `(min_x, min_y, max_x, max_y)`;
`mkFootprint x y w d ang` is `geometry.create_furniture_polygon`, the
`w × d` rectangle centred at the origin, rotated by `ang` degrees and
translated to `(x, y)`. -/
structure GeoBackend (α : Type) where
  intersects : α → α → Bool
  interArea : α → α → ℚ
  containsP : α → α → Bool
  area : α → ℚ
  centroid : α → ℚ × ℚ
  boundaryDist : α → ℚ × ℚ → ℚ
  bounds : α → ℚ × ℚ × ℚ × ℚ
  mkFootprint : ℚ → ℚ → ℚ → ℚ → Int → α

/-- Embedding of `geometry.calculate_overlap_area`: zero when the two
polygons do not intersect, otherwise the area of their intersection. -/
def calculate_overlap_area {α : Type} (g : GeoBackend α) (p1 p2 : α) : ℚ :=
  if g.intersects p1 p2 then g.interArea p1 p2 else 0

/-- Embedding of `geometry.check_containment`. -/
def check_containment {α : Type} (g : GeoBackend α) (container item : α) : Bool :=
  g.containsP container item

/-- Embedding of `geometry.distance_to_wall`. -/
def distance_to_wall {α : Type} (g : GeoBackend α) (point : ℚ × ℚ) (room_poly : α) : ℚ :=
  g.boundaryDist room_poly point

/-- Embedding of `constraints.ConstraintChecker`.  The constructor also
receives door and window lists, but every verified method ignores them,
so they are not carried. -/
structure ConstraintChecker (α : Type) where
  g : GeoBackend α
  room_poly : α

/-- Embedding of `ConstraintChecker.create_furniture_polygon_wrapper`. -/
def ConstraintChecker.create_furniture_polygon_wrapper {α : Type}
    (cc : ConstraintChecker α) (item : FurnitureItem) (x y : ℚ) (rot : Int) : α :=
  cc.g.mkFootprint x y item.width item.depth rot

/-- Embedding of `ConstraintChecker.check_boundary`. -/
def ConstraintChecker.check_boundary {α : Type}
    (cc : ConstraintChecker α) (furniture_poly : α) : Bool :=
  check_containment cc.g cc.room_poly furniture_poly

/-- Embedding of `ConstraintChecker.check_overlap`: true when some other
polygon intersects the given one with overlap area above the `0.01`
tolerance. -/
def ConstraintChecker.check_overlap {α : Type}
    (cc : ConstraintChecker α) (furniture_poly : α) (other_polys : List α) : Bool :=
  other_polys.any (fun other =>
    cc.g.intersects furniture_poly other &&
      decide (calculate_overlap_area cc.g furniture_poly other > 1/100))

/-- Embedding of `ConstraintChecker.check_hard_constraints`. -/
def ConstraintChecker.check_hard_constraints {α : Type}
    (cc : ConstraintChecker α) (furniture_poly : α) (other_polys : List α) : Bool :=
  cc.check_boundary furniture_poly && ! cc.check_overlap furniture_poly other_polys

/-- Embedding of `ConstraintChecker.get_nearest_wall_distance`: distance
from the footprint centroid to the room boundary. -/
def ConstraintChecker.get_nearest_wall_distance {α : Type}
    (cc : ConstraintChecker α) (furniture_poly : α) : ℚ :=
  distance_to_wall cc.g (cc.g.centroid furniture_poly) cc.room_poly

/-- Embedding of `fitness.FitnessEvaluator` (room polygon, furniture
list, constraint checker). -/
structure FitnessEvaluator (α : Type) where
  room_poly : α
  furniture_items : List FurnitureItem
  constraints : ConstraintChecker α

/-- Footprint list built by the first loop of `calculate_fitness`: one
polygon per furniture item, posed by the positionally matching layout
entry.  Python indexes `layout[i]`; the zip is equal to that whenever the
layout has one placement per item (the candidate invariant). -/
def footprints {α : Type} (fe : FitnessEvaluator α) (layout : List Placement) : List α :=
  (fe.furniture_items.zip layout).map
    (fun pr => fe.constraints.create_furniture_polygon_wrapper pr.1 pr.2.x pr.2.y pr.2.rot)

/-- Boundary-penalty accumulation of `calculate_fitness`: `1000` added
for every footprint that fails `check_boundary`. -/
def boundary_pass {α : Type} (cc : ConstraintChecker α) (polys : List α) (acc : ℚ) : ℚ :=
  polys.foldl (fun a p => if cc.check_boundary p then a else a + 1000) acc

/-- Pairwise-overlap penalty loop of `calculate_fitness`: for every
unordered pair (the nested `for i` / `for j in range(i+1, ...)` loops),
any strictly positive overlap area adds `area * 500`. -/
def overlap_pass {α : Type} (g : GeoBackend α) : List α → ℚ → ℚ
  | [], acc => acc
  | p :: rest, acc =>
      overlap_pass g rest
        (rest.foldl
          (fun a other =>
            if 0 < calculate_overlap_area g p other
            then a + calculate_overlap_area g p other * 500 else a)
          acc)

/-- Alignment loop of `calculate_fitness`: `10` for every footprint whose
centroid is within `0.1` of the room boundary. -/
def alignment_pass {α : Type} (cc : ConstraintChecker α) (polys : List α) : ℚ :=
  polys.foldl (fun a p => if cc.get_nearest_wall_distance p < 1/10 then a + 10 else a) 0

/-- Embedding of `FitnessEvaluator.calculate_fitness`: build the
footprints, accumulate the boundary and overlap penalties, return the
negated penalty when it is positive, and otherwise the wall-alignment
score. -/
def calculate_fitness {α : Type} (fe : FitnessEvaluator α) (layout : List Placement) : ℚ :=
  let polys := footprints fe layout
  let penalty := overlap_pass fe.constraints.g polys (boundary_pass fe.constraints polys 0)
  if 0 < penalty then -penalty
  else alignment_pass fe.constraints polys

/-- Embedding of `FitnessEvaluator.calculate_normalized_score`. -/
def calculate_normalized_score {α : Type} (fe : FitnessEvaluator α) (raw_fitness : ℚ) : ℚ :=
  if raw_fitness < 0 then
    max 0 (50 + raw_fitness * (1/10))
  else
    let max_score : ℚ := (fe.furniture_items.length : ℚ) * 10
    if max_score = 0 then 50
    else min 100 (50 + raw_fitness / max_score * 50)

/-- One draw of `create_individual` for one item: `random.uniform` for
`x` and for `y`, and the `random.choice([0, 90, 180, 270])` value (the
choice is drawn only for rotatable items in Python; carrying it always
and discarding it for non-rotatable items yields the same result). -/
structure InitDraw where
  x : ℚ
  y : ℚ
  rot : Int
deriving DecidableEq, Repr

/-- Embedding of `GeneticOptimizer.create_individual`: one placement per
furniture item, with rotation pinned to `0` for non-rotatable items. -/
def create_individual : List FurnitureItem → (Nat → InitDraw) → List Placement
  | [], _ => []
  | item :: rest, s =>
      { x := (s 0).x, y := (s 0).y,
        rot := if item.rotatable then (s 0).rot else 0 }
        :: create_individual rest (fun n => s (n + 1))

/-- Embedding of `random.randint(a, b)`: the drawn value when it lies in
`[a, b]`; when `a > b` no draw qualifies, matching the `ValueError`
Python raises on an empty range (`none` = exception). -/
def randint (a b draw : Int) : Option Int :=
  if a ≤ draw ∧ draw ≤ b then some draw else none

/-- Embedding of `GeneticOptimizer.crossover`: `nItems` is
`len(self.furniture_items)`; the cut point comes from
`random.randint(1, nItems - 1)`, and the children are the single-point
splices of the two parents. -/
def crossover (nItems : Nat) (parent1 parent2 : List Placement) (draw : Int) :
    Option (List Placement × List Placement) :=
  (randint 1 ((nItems : Int) - 1) draw).map (fun point =>
    (parent1.take point.toNat ++ parent2.drop point.toNat,
     parent2.take point.toNat ++ parent1.drop point.toNat))

/-- One per-gene draw of `mutate`: the `random.random()` gate deciding
mutation, the two `random.uniform(-0.5, 0.5)` offsets, the
`random.random()` gate deciding rotation resampling, and the
`random.choice([0, 90, 180, 270])` value. -/
structure MutDraw where
  gate : ℚ
  dx : ℚ
  dy : ℚ
  rgate : ℚ
  rot : Int
deriving DecidableEq, Repr

/-- Embedding of `GeneticOptimizer.mutate`: each gene independently, when
its gate fires, is moved by `(dx, dy)` and, when the rotation gate fires,
has its rotation replaced by the drawn choice — with no check of the
item's rotatability. -/
def mutate : List Placement → ℚ → (Nat → MutDraw) → List Placement
  | [], _, _ => []
  | p :: rest, rate, s =>
      (if (s 0).gate < rate then
        { x := p.x + (s 0).dx, y := p.y + (s 0).dy,
          rot := if (s 0).rgate < 1/2 then (s 0).rot else p.rot }
       else p) :: mutate rest rate (fun n => s (n + 1))

/-- Outcome of the model-loading attempt in `GeneticOptimizer.__init__`:
the artifact file is missing, the artifact loads to a model, or loading
raises (the `except` branch).  The model itself is a black-box function
from the feature vector to a scalar. -/
inductive MlLoadOutcome (M : Type) where
  | fileMissing : MlLoadOutcome M
  | loaded : M → MlLoadOutcome M
  | loadFailed : String → MlLoadOutcome M

/-- Embedding of the `try/except` model-loading block of
`GeneticOptimizer.__init__`: `self.ml_model` stays `None` when the file
is missing or loading raises, and holds the model otherwise; no outcome
propagates an exception. -/
def init_ml_model {M : Type} : MlLoadOutcome M → Option M
  | .fileMissing => none
  | .loaded m => some m
  | .loadFailed _ => none

/-- Feature vector built by `GeneticOptimizer._get_ml_score`: normalized
room area, then the hard-coded placeholders for aspect ratio (`1.0`),
door count (`0.25`) and window count (`0.25`), the normalized furniture
count, and the normalized average placement position.  `width` and
`height` are the room bounding-box extents. -/
def ml_features (room_area width height : ℚ) (nFurniture : Nat)
    (individual : List Placement) : List ℚ :=
  let xs := individual.map Placement.x
  let ys := individual.map Placement.y
  let avg_x := xs.sum / (xs.length : ℚ)
  let avg_y := ys.sum / (ys.length : ℚ)
  [room_area / 50, 1, 1/4, 1/4, (nFurniture : ℚ) / 20,
   if 0 < width then avg_x / width else 0,
   if 0 < height then avg_y / height else 0]

/-- Embedding of `GeneticOptimizer._get_ml_score`: `0.0` when no model is
loaded, otherwise the model output on the feature vector scaled by
`100`. -/
def get_ml_score (ml_model : Option (List ℚ → ℚ)) (room_area width height : ℚ)
    (nFurniture : Nat) (individual : List Placement) : ℚ :=
  match ml_model with
  | none => 0
  | some m => m (ml_features room_area width height nFurniture individual) * 100

/-- Embedding of the `GeneticOptimizer` state set up by `__init__`:
geometry backend, room polygon, furniture list, sizes, the room bounds
and the optional loaded model. -/
structure GeneticOptimizer (α : Type) where
  g : GeoBackend α
  room_poly : α
  furniture_items : List FurnitureItem
  pop_size : Nat
  generations : Nat
  min_x : ℚ
  min_y : ℚ
  max_x : ℚ
  max_y : ℚ
  ml_model : Option (List ℚ → ℚ)

/-- Embedding of `GeneticOptimizer.__init__`: stores the inputs, unpacks
`room_poly.bounds`, and resolves the model-loading attempt through
`init_ml_model`; construction is total — it succeeds for every load
outcome. -/
def GeneticOptimizer.mk_init {α : Type} (g : GeoBackend α) (room_poly : α)
    (furniture_items : List FurnitureItem) (population_size generations : Nat)
    (load : MlLoadOutcome (List ℚ → ℚ)) : GeneticOptimizer α :=
  { g := g, room_poly := room_poly, furniture_items := furniture_items,
    pop_size := population_size, generations := generations,
    min_x := (g.bounds room_poly).1, min_y := (g.bounds room_poly).2.1,
    max_x := (g.bounds room_poly).2.2.1, max_y := (g.bounds room_poly).2.2.2,
    ml_model := init_ml_model load }

/-- The `self.constraints` collaborator built in `__init__` (door and
window lists are passed empty there). -/
def GeneticOptimizer.constraints {α : Type} (o : GeneticOptimizer α) : ConstraintChecker α :=
  { g := o.g, room_poly := o.room_poly }

/-- The `self.evaluator` collaborator built in `__init__`. -/
def GeneticOptimizer.evaluator {α : Type} (o : GeneticOptimizer α) : FitnessEvaluator α :=
  { room_poly := o.room_poly, furniture_items := o.furniture_items,
    constraints := o.constraints }

/-- Per-candidate score computed in the evaluation loop of
`GeneticOptimizer.optimize`: the geometric fitness, blended with the
scaled model score when a model is loaded. -/
def score_candidate {α : Type} (o : GeneticOptimizer α) (ind : List Placement) : ℚ :=
  let geo_score := calculate_fitness o.evaluator ind
  match o.ml_model with
  | some _ =>
      geo_score * (7/10) +
        get_ml_score o.ml_model (o.g.area o.room_poly) (o.max_x - o.min_x)
          (o.max_y - o.min_y) o.furniture_items.length ind * (3/10)
  | none => geo_score

/-- The `fitness_scores` list of one generation of `optimize`. -/
def evaluate_population {α : Type} (o : GeneticOptimizer α)
    (population : List (List Placement)) : List ℚ :=
  population.map (score_candidate o)

/-- The initial population of `optimize`: `pop_size` independent calls of
`create_individual`, each on its own draw stream. -/
def init_population {α : Type} (o : GeneticOptimizer α)
    (initDraws : Nat → Nat → InitDraw) : List (List Placement) :=
  (List.range o.pop_size).map (fun i => create_individual o.furniture_items (initDraws i))

/-- Embedding of the parent pick
`population[random.randint(0, self.pop_size - 1)]`: `none` when the
`randint` range is empty or the index falls outside the population. -/
def select_parent (population : List (List Placement)) (pop_size : Nat) (draw : Int) :
    Option (List Placement) :=
  (randint 0 ((pop_size : Int) - 1) draw).bind (fun i => population.get? i.toNat)

/-- Draws consumed by one iteration of the replacement loop, indexed by
the iteration counter: the two parent picks, the crossover cut, and the
two per-gene mutation streams. -/
structure PairDraws where
  sel1 : Nat → Int
  sel2 : Nat → Int
  cut : Nat → Int
  mutA : Nat → Nat → MutDraw
  mutB : Nat → Nat → MutDraw

/-- One iteration of the replacement loop of `optimize`: select two
parents, cross them over, and mutate both children (mutation rate is the
default `0.1`); `none` when any step raises. -/
def make_pair {α : Type} (o : GeneticOptimizer α) (population : List (List Placement))
    (gd : PairDraws) (k : Nat) : Option (List Placement × List Placement) :=
  match select_parent population o.pop_size (gd.sel1 k),
        select_parent population o.pop_size (gd.sel2 k) with
  | some p1, some p2 =>
      (crossover o.furniture_items.length p1 p2 (gd.cut k)).map
        (fun c => (mutate c.1 (1/10) (gd.mutA k), mutate c.2 (1/10) (gd.mutB k)))
  | _, _ => none

/-- The `while len(new_population) < self.pop_size` loop of `optimize`,
accumulating two children per iteration.  `fuel` bounds the number of
iterations performed; since every iteration appends two children, a fuel
of `pop_size` always suffices (`fill_loop_enough_fuel`), so fuel
exhaustion (`none`) is unreachable at the call site. -/
def fill_loop (pairAt : Nat → Option (List Placement × List Placement)) (pop_size : Nat) :
    Nat → Nat → List (List Placement) → Option (List (List Placement))
  | 0, _, acc => if acc.length < pop_size then none else some acc
  | fuel + 1, k, acc =>
      if acc.length < pop_size then
        match pairAt k with
        | none => none
        | some c => fill_loop pairAt pop_size fuel (k + 1) (acc ++ [c.1, c.2])
      else some acc

/-- Replacement step of `optimize`: run the fill loop from an empty list
and truncate the result to `pop_size` (`new_population[:self.pop_size]`),
fully replacing the previous population. -/
def next_population {α : Type} (o : GeneticOptimizer α)
    (population : List (List Placement)) (gd : PairDraws) :
    Option (List (List Placement)) :=
  (fill_loop (make_pair o population gd) o.pop_size o.pop_size 0 []).map
    (fun l => l.take o.pop_size)

/-- Best-ever tracking of `optimize`: `none` stands for the initial
`best_fitness = -inf`, which any real score beats; the update keeps the
candidate at the first index of the maximal score, and fires only on a
strict improvement. -/
def update_best (population : List (List Placement)) (scores : List ℚ)
    (best : Option (List Placement × ℚ)) : Option (List Placement × ℚ) :=
  match scores.max? with
  | none => best
  | some mx =>
      match best with
      | none => some (population.getD (scores.indexOf mx) [], mx)
      | some (bc, bf) =>
          if bf < mx then some (population.getD (scores.indexOf mx) [], mx)
          else some (bc, bf)

/-- One generation of `optimize`: score the population, update the
best-ever pair, and build the replacement population; `none` when the
generation raises (`max` of an empty score list, or a raising
replacement step). -/
def one_generation {α : Type} (o : GeneticOptimizer α) (gd : PairDraws)
    (st : List (List Placement) × Option (List Placement × ℚ)) :
    Option (List (List Placement) × Option (List Placement × ℚ)) :=
  let scores := evaluate_population o st.1
  match scores.max? with
  | none => none
  | some _ =>
      (next_population o st.1 gd).map (fun np => (np, update_best st.1 scores st.2))

/-- The generation loop of `optimize`. -/
def run_generations {α : Type} (o : GeneticOptimizer α) (gds : Nat → PairDraws) :
    Nat → Nat → List (List Placement) × Option (List Placement × ℚ) →
    Option (List (List Placement) × Option (List Placement × ℚ))
  | 0, _, st => some st
  | n + 1, gidx, st =>
      match one_generation o (gds gidx) st with
      | none => none
      | some st2 => run_generations o gds n (gidx + 1) st2

/-- Embedding of `GeneticOptimizer.optimize`: seed the population, run
the generation budget, and return the best-ever candidate and fitness
(`none` inside the result is the never-updated
`(None, -inf)` initial pair; the outer `none` is a raised exception). -/
def GeneticOptimizer.optimize {α : Type} (o : GeneticOptimizer α)
    (initDraws : Nat → Nat → InitDraw) (gds : Nat → PairDraws) :
    Option (Option (List Placement × ℚ)) :=
  (run_generations o gds o.generations 0 (init_population o initDraws, none)).map
    (fun st => st.2)

/-- An axis-aligned rectangle given by its bounds, the concrete polygon
representation used to instantiate the shapely layer: every footprint the
optimizer builds is an axis-aligned rectangle (rotations are multiples of
90 degrees), and the rooms used in concrete evaluations below are
rectangular. -/
structure Rect where
  xmin : ℚ
  ymin : ℚ
  xmax : ℚ
  ymax : ℚ
deriving DecidableEq, Repr

/-- Shapely intersection test for axis-aligned rectangles (touching
counts as intersecting, as in shapely). -/
def Rect.intersectsR (a b : Rect) : Bool :=
  decide (a.xmin ≤ b.xmax ∧ b.xmin ≤ a.xmax ∧ a.ymin ≤ b.ymax ∧ b.ymin ≤ a.ymax)

/-- Area of the intersection of two axis-aligned rectangles. -/
def Rect.interAreaR (a b : Rect) : ℚ :=
  max 0 (min a.xmax b.xmax - max a.xmin b.xmin) *
    max 0 (min a.ymax b.ymax - max a.ymin b.ymin)

/-- Signed area of an axis-aligned rectangle (the shapely area for a
well-formed rectangle, whose bounds are ordered). -/
def Rect.areaR (r : Rect) : ℚ :=
  (r.xmax - r.xmin) * (r.ymax - r.ymin)

/-- Shapely containment for non-degenerate axis-aligned rectangles:
nested bounds (boundary contact allowed, as in shapely `contains` for a
positive-area item inside the container). -/
def Rect.containsR (container item : Rect) : Bool :=
  decide (container.xmin ≤ item.xmin ∧ item.xmax ≤ container.xmax ∧
          container.ymin ≤ item.ymin ∧ item.ymax ≤ container.ymax)

/-- Centroid of an axis-aligned rectangle. -/
def Rect.centroidR (r : Rect) : ℚ × ℚ :=
  ((r.xmin + r.xmax) / 2, (r.ymin + r.ymax) / 2)

/-- Distance from a point to the boundary of a rectangle, for points
inside the rectangle (the minimum of the four side distances, clamped at
zero); every concrete evaluation below keeps centroids inside the
room, where this agrees with the shapely boundary distance. -/
def Rect.boundaryDistR (r : Rect) (p : ℚ × ℚ) : ℚ :=
  max 0 (min (min (p.1 - r.xmin) (r.xmax - p.1)) (min (p.2 - r.ymin) (r.ymax - p.2)))

/-- Embedding of `geometry.create_furniture_polygon` for the rotations
the optimizer draws (multiples of 90 degrees): rotating the
`width × depth` rectangle about the origin by 90 or 270 degrees swaps its
extents, and by 0 or 180 leaves them; the result is then translated to
`(x, y)`. -/
def Rect.mkFootprintR (x y width depth : ℚ) (angle : Int) : Rect :=
  if angle % 180 = 0 then
    { xmin := x - width / 2, ymin := y - depth / 2,
      xmax := x + width / 2, ymax := y + depth / 2 }
  else
    { xmin := x - depth / 2, ymin := y - width / 2,
      xmax := x + depth / 2, ymax := y + width / 2 }

/-- The shapely layer instantiated at axis-aligned rectangles. -/
def rectBackend : GeoBackend Rect :=
  { intersects := Rect.intersectsR, interArea := Rect.interAreaR,
    containsP := Rect.containsR, area := Rect.areaR,
    centroid := Rect.centroidR, boundaryDist := Rect.boundaryDistR,
    bounds := fun r => (r.xmin, r.ymin, r.xmax, r.ymax),
    mkFootprint := Rect.mkFootprintR }

/-- A well-formed (valid, in the shapely sense) axis-aligned rectangle:
ordered bounds. -/
def VRect : Type := { r : Rect // r.xmin ≤ r.xmax ∧ r.ymin ≤ r.ymax }

/-- The shapely layer instantiated at well-formed rectangles, the class
on which shapely guarantees its algebraic contract (a valid polygon
intersects itself and self-intersection returns the polygon itself). -/
def vrectBackend : GeoBackend VRect :=
  { intersects := fun a b => a.val.intersectsR b.val,
    interArea := fun a b => a.val.interAreaR b.val,
    containsP := fun a b => a.val.containsR b.val,
    area := fun a => a.val.areaR,
    centroid := fun a => a.val.centroidR,
    boundaryDist := fun a p => a.val.boundaryDistR p,
    bounds := fun a => (a.val.xmin, a.val.ymin, a.val.xmax, a.val.ymax),
    mkFootprint := fun x y _ _ _ =>
      ⟨{ xmin := x, ymin := y, xmax := x, ymax := y }, le_refl x, le_refl y⟩ }

/-- Count of footprints failing the boundary check, the declarative form
of the `1000`-per-violation penalty. -/
def count_outside {α : Type} (cc : ConstraintChecker α) (polys : List α) : Nat :=
  (polys.filter (fun p => ! cc.check_boundary p)).length

/-- Sum, over every unordered pair of footprints, of the overlap area
when it is strictly positive — the declarative form of the pairwise
overlap penalty. -/
def pairwise_pos_overlap_sum {α : Type} (g : GeoBackend α) : List α → ℚ
  | [] => 0
  | p :: rest =>
      (rest.map (fun other =>
        if 0 < calculate_overlap_area g p other
        then calculate_overlap_area g p other else 0)).sum +
        pairwise_pos_overlap_sum g rest

/-- Count of footprints whose centroid-to-boundary distance is below
`0.1`, the declarative form of the alignment score. -/
def wall_close_count {α : Type} (cc : ConstraintChecker α) (polys : List α) : Nat :=
  (polys.filter (fun p => decide (cc.get_nearest_wall_distance p < 1/10))).length

/-- Modelled from the spec: the feature vector the specification ascribes
to the approximator adapter — normalized room area, the room's actual
aspect ratio, the actual door count, the actual window count, the
furniture count (normalization as in the code) and the normalized average
placement position.  The repository has no function computing this
vector; it is stated only to be compared with `ml_features`. -/
def ml_features_spec (room_area aspect : ℚ) (numDoors numWindows : Nat)
    (width height : ℚ) (nFurniture : Nat) (individual : List Placement) : List ℚ :=
  let xs := individual.map Placement.x
  let ys := individual.map Placement.y
  let avg_x := xs.sum / (xs.length : ℚ)
  let avg_y := ys.sum / (ys.length : ℚ)
  [room_area / 50, aspect, (numDoors : ℚ), (numWindows : ℚ), (nFurniture : ℚ) / 20,
   if 0 < width then avg_x / width else 0,
   if 0 < height then avg_y / height else 0]

lemma calculate_normalized_score_of_neg {α : Type} (fe : FitnessEvaluator α) (raw : ℚ)
    (h : raw < 0) :
    calculate_normalized_score fe raw = max 0 (50 + raw * (1/10)) := by
  unfold calculate_normalized_score
  rw [if_pos h]

lemma calculate_normalized_score_of_nonneg_zero {α : Type} (fe : FitnessEvaluator α) (raw : ℚ)
    (h : ¬ raw < 0) (h0 : fe.furniture_items.length = 0) :
    calculate_normalized_score fe raw = 50 := by
  unfold calculate_normalized_score
  rw [if_neg h]
  simp [h0]

lemma calculate_normalized_score_of_nonneg_pos {α : Type} (fe : FitnessEvaluator α) (raw : ℚ)
    (h : ¬ raw < 0) (hn : fe.furniture_items.length ≠ 0) :
    calculate_normalized_score fe raw =
      min 100 (50 + raw / ((fe.furniture_items.length : ℚ) * 10) * 50) := by
  unfold calculate_normalized_score
  rw [if_neg h]
  have hne : ((fe.furniture_items.length : ℚ) * 10) ≠ 0 := by
    simp [hn]
  simp only [hne, if_false]

/-- C3: `calculate_normalized_score` returns `max 0 (50 + raw * 0.1)` for
negative raw scores (always below 50), `50` for an empty furniture list,
and `min 100 (50 + raw / (10 n) * 50)` otherwise; in particular it maps
`0` to `50`, `-500` to `0` and `n * 10` to `100` (for `n > 0`), and the
result always lies in `[0, 100]`. -/
theorem C3_normalized_score_correct {α : Type} (fe : FitnessEvaluator α) (raw : ℚ) :
    (raw < 0 → calculate_normalized_score fe raw = max 0 (50 + raw * (1/10)) ∧
      calculate_normalized_score fe raw < 50)
    ∧ (¬ raw < 0 → fe.furniture_items.length = 0 → calculate_normalized_score fe raw = 50)
    ∧ (¬ raw < 0 → fe.furniture_items.length ≠ 0 →
        calculate_normalized_score fe raw =
          min 100 (50 + raw / ((fe.furniture_items.length : ℚ) * 10) * 50))
    ∧ (0 < fe.furniture_items.length → calculate_normalized_score fe 0 = 50)
    ∧ calculate_normalized_score fe (-500) = 0
    ∧ (0 < fe.furniture_items.length →
        calculate_normalized_score fe ((fe.furniture_items.length : ℚ) * 10) = 100)
    ∧ 0 ≤ calculate_normalized_score fe raw
    ∧ calculate_normalized_score fe raw ≤ 100 := by
  have hb : 0 ≤ calculate_normalized_score fe raw ∧ calculate_normalized_score fe raw ≤ 100 := by
    by_cases h : raw < 0
    · rw [calculate_normalized_score_of_neg fe raw h]
      constructor
      · exact le_max_left 0 _
      · exact max_le (by norm_num) (by linarith)
    · by_cases hn : fe.furniture_items.length = 0
      · rw [calculate_normalized_score_of_nonneg_zero fe raw h hn]
        norm_num
      · rw [calculate_normalized_score_of_nonneg_pos fe raw h hn]
        have hpos : (0 : ℚ) < (fe.furniture_items.length : ℚ) * 10 := by
          have : 0 < fe.furniture_items.length := Nat.pos_of_ne_zero hn
          positivity
        constructor
        · have hq : (0 : ℚ) ≤ 50 + raw / ((fe.furniture_items.length : ℚ) * 10) * 50 := by
            have : 0 ≤ raw / ((fe.furniture_items.length : ℚ) * 10) :=
              div_nonneg (not_lt.mp h) (le_of_lt hpos)
            linarith
          exact le_min (by norm_num) hq
        · exact min_le_left 100 _
  refine ⟨?_, ?_, ?_, ?_, ?_, ?_, hb.1, hb.2⟩
  · intro h
    refine ⟨calculate_normalized_score_of_neg fe raw h, ?_⟩
    rw [calculate_normalized_score_of_neg fe raw h]
    exact max_lt (by norm_num) (by linarith)
  · exact calculate_normalized_score_of_nonneg_zero fe raw
  · exact calculate_normalized_score_of_nonneg_pos fe raw
  · intro hn
    rw [calculate_normalized_score_of_nonneg_pos fe 0 (by norm_num) hn.ne']
    norm_num
  · rw [calculate_normalized_score_of_neg fe (-500) (by norm_num)]
    norm_num
  · intro hn
    have hne : (fe.furniture_items.length : ℚ) * 10 ≠ 0 := by
      have : 0 < fe.furniture_items.length := hn
      positivity
    have hnneg : ¬ ((fe.furniture_items.length : ℚ) * 10) < 0 := by
      push_neg
      positivity
    rw [calculate_normalized_score_of_nonneg_pos fe _ hnneg hn.ne']
    rw [div_self hne]
    norm_num

/-- The room used by concrete evaluations: the axis-aligned square with
corners `(0, 0)` and `(10, 10)`. -/
def roomW : Rect := { xmin := 0, ymin := 0, xmax := 10, ymax := 10 }

/-- A concrete constraint checker over the rectangle backend. -/
def ccW : ConstraintChecker Rect := { g := rectBackend, room_poly := roomW }

/-- A concrete fitness evaluator with two unit-square furniture items. -/
def feW : FitnessEvaluator Rect :=
  { room_poly := roomW,
    furniture_items := [{ width := 1, depth := 1, rotatable := true },
                        { width := 1, depth := 1, rotatable := true }],
    constraints := ccW }

/-- Witness for C3 at a concrete evaluator and raw score. -/
theorem C3_normalized_score_correct_witness :
    ((-500 : ℚ) < 0) ∧ calculate_normalized_score feW (-500) = 0 ∧
      (0 < feW.furniture_items.length ∧ calculate_normalized_score feW 0 = 50) := by
  refine ⟨by norm_num, (C3_normalized_score_correct feW (-500)).2.2.2.2.1, by decide,
    (C3_normalized_score_correct feW 0).2.2.2.1 (by decide)⟩

/-- C6: for parents of equal length `n ≥ 2` and a cut drawn from the
`randint(1, n-1)` range, `crossover` returns child A as parent1's
placements before the cut followed by parent2's placements from the cut
onward, child B as the complement, both of length `n`; in particular the
four-element parents of the specification cut at index `2` give exactly
the spliced children. -/
theorem C6_crossover_single_point (n : Nat) (p1 p2 : List Placement) (draw : Int)
    (h1 : p1.length = n) (h2 : p2.length = n) (hn : 2 ≤ n)
    (hd1 : 1 ≤ draw) (hd2 : draw ≤ (n : Int) - 1) :
    crossover n p1 p2 draw =
      some (p1.take draw.toNat ++ p2.drop draw.toNat,
            p2.take draw.toNat ++ p1.drop draw.toNat)
    ∧ (p1.take draw.toNat ++ p2.drop draw.toNat).length = n
    ∧ (p2.take draw.toNat ++ p1.drop draw.toNat).length = n
    ∧ ∀ (a b c d w x y z : Placement),
        crossover 4 [a, b, c, d] [w, x, y, z] 2 =
          some ([a, b, y, z], [w, x, c, d]) := by
  have hrange : randint 1 ((n : Int) - 1) draw = some draw := by
    unfold randint
    rw [if_pos ⟨hd1, hd2⟩]
  have htn : draw.toNat ≤ n := by omega
  refine ⟨?_, ?_, ?_, ?_⟩
  · unfold crossover
    rw [hrange]
    rfl
  · simp [List.length_append, List.length_take, List.length_drop, h1, h2]
    omega
  · simp [List.length_append, List.length_take, List.length_drop, h1, h2]
    omega
  · intro a b c d w x y z
    rfl

/-- Witness for C6: concrete four-element parents cut at index 2. -/
theorem C6_crossover_single_point_witness :
    (([⟨0, 0, 0⟩, ⟨1, 0, 0⟩, ⟨2, 0, 0⟩, ⟨3, 0, 0⟩] : List Placement).length = 4
      ∧ (([⟨4, 0, 0⟩, ⟨5, 0, 0⟩, ⟨6, 0, 0⟩, ⟨7, 0, 0⟩] : List Placement).length = 4)
      ∧ 2 ≤ 4 ∧ (1 : Int) ≤ 2 ∧ (2 : Int) ≤ (4 : Int) - 1)
    ∧ crossover 4 [⟨0, 0, 0⟩, ⟨1, 0, 0⟩, ⟨2, 0, 0⟩, ⟨3, 0, 0⟩]
        [⟨4, 0, 0⟩, ⟨5, 0, 0⟩, ⟨6, 0, 0⟩, ⟨7, 0, 0⟩] 2 =
        some ([⟨0, 0, 0⟩, ⟨1, 0, 0⟩, ⟨6, 0, 0⟩, ⟨7, 0, 0⟩],
              [⟨4, 0, 0⟩, ⟨5, 0, 0⟩, ⟨2, 0, 0⟩, ⟨3, 0, 0⟩]) := by
  refine ⟨⟨by decide, by decide, by decide, by decide, by decide⟩, ?_⟩
  have h := C6_crossover_single_point 4
    [⟨0, 0, 0⟩, ⟨1, 0, 0⟩, ⟨2, 0, 0⟩, ⟨3, 0, 0⟩]
    [⟨4, 0, 0⟩, ⟨5, 0, 0⟩, ⟨6, 0, 0⟩, ⟨7, 0, 0⟩] 2
    (by decide) (by decide) (by decide) (by decide) (by decide)
  exact h.1

/-- C1 (failing part): `mutate` resamples the rotation of a gene with no
check of the item's rotatability.  For a single non-rotatable item,
`create_individual` pins the rotation at `0` as the claim states (and the
length is one per item), but one mutation step with in-range draws (gate
`0 < 0.1`, zero offsets, rotation gate `0 < 0.5`, choice `90` drawn from
the allowed set) turns the rotation into `90 ≠ 0`, violating the claimed
invariant at the mutation stage. -/
theorem C1_mutation_rotates_nonrotatable :
    ({ width := 3/2, depth := 3/5, rotatable := false } : FurnitureItem).rotatable = false
    ∧ create_individual [{ width := 3/2, depth := 3/5, rotatable := false }]
        (fun _ => { x := 2, y := 2, rot := 90 }) = [{ x := 2, y := 2, rot := 0 }]
    ∧ (create_individual [{ width := 3/2, depth := 3/5, rotatable := false }]
        (fun _ => { x := 2, y := 2, rot := 90 })).length = 1
    ∧ ((0 : ℚ) ≤ 0 ∧ (0 : ℚ) < 1/10 ∧ (0 : ℚ) < 1/2
        ∧ (-(1/2) : ℚ) ≤ 0 ∧ (0 : ℚ) ≤ 1/2 ∧ (90 : Int) ∈ [0, 90, 180, 270])
    ∧ mutate [{ x := 2, y := 2, rot := 0 }] (1/10)
        (fun _ => { gate := 0, dx := 0, dy := 0, rgate := 0, rot := 90 }) =
        [{ x := 2, y := 2, rot := 90 }]
    ∧ (90 : Int) ≠ 0 := by
  refine ⟨rfl, rfl, rfl, ⟨by norm_num, by norm_num, by norm_num, by norm_num, by norm_num,
    by decide⟩, ?_, by decide⟩
  norm_num [mutate]

/-- C4 (failing part): with exactly one furniture item the crossover step
calls `random.randint(1, 0)`, whose range is empty, so it raises for
every possible draw — no value is returned, although a one-item furniture
list passes the request type validation. -/
theorem C4_crossover_raises_on_single_item :
    (∀ (p1 p2 : List Placement) (draw : Int), crossover 1 p1 p2 draw = none)
    ∧ randint 1 ((1 : Int) - 1) 0 = none
    ∧ randint 1 0 1 = none := by
  refine ⟨?_, by decide, by decide⟩
  intro p1 p2 draw
  unfold crossover randint
  have h : ¬ ((1 : Int) ≤ draw ∧ draw ≤ ((1 : Nat) : Int) - 1) := by
    push_cast
    omega
  rw [if_neg h]
  rfl

lemma vrect_intersects_symm (a b : VRect) :
    vrectBackend.intersects a b = vrectBackend.intersects b a := by
  show a.val.intersectsR b.val = b.val.intersectsR a.val
  unfold Rect.intersectsR
  exact decide_eq_decide.mpr (by tauto)

lemma vrect_interArea_symm (a b : VRect) :
    vrectBackend.interArea a b = vrectBackend.interArea b a := by
  show a.val.interAreaR b.val = b.val.interAreaR a.val
  unfold Rect.interAreaR
  rw [min_comm a.val.xmax, max_comm a.val.xmin, min_comm a.val.ymax, max_comm a.val.ymin]

lemma vrect_interArea_nonneg (a b : VRect) : 0 ≤ vrectBackend.interArea a b :=
  mul_nonneg (le_max_left 0 _) (le_max_left 0 _)

lemma vrect_intersects_self (a : VRect) : vrectBackend.intersects a a = true := by
  show a.val.intersectsR a.val = true
  unfold Rect.intersectsR
  exact decide_eq_true ⟨a.prop.1, a.prop.1, a.prop.2, a.prop.2⟩

lemma vrect_interArea_self (a : VRect) : vrectBackend.interArea a a = vrectBackend.area a := by
  show a.val.interAreaR a.val = a.val.areaR
  unfold Rect.interAreaR Rect.areaR
  rw [min_self, min_self, max_self, max_self,
    max_eq_right (sub_nonneg.mpr a.prop.1), max_eq_right (sub_nonneg.mpr a.prop.2)]

/-- C9: under the shapely contract for valid polygons (symmetric
intersection test and intersection area, non-negative areas, and
self-intersection returning the polygon itself), `calculate_overlap_area`
is symmetric, returns the polygon's area on a self-pair, is never
negative, and is `0` whenever the polygons do not intersect. -/
theorem C9_overlap_area_algebra {α : Type} (g : GeoBackend α)
    (hIs : ∀ a b, g.intersects a b = g.intersects b a)
    (hAs : ∀ a b, g.interArea a b = g.interArea b a)
    (hAn : ∀ a b, 0 ≤ g.interArea a b)
    (hSelf : ∀ a, g.intersects a a = true)
    (hSelfArea : ∀ a, g.interArea a a = g.area a) :
    (∀ a b, calculate_overlap_area g a b = calculate_overlap_area g b a)
    ∧ (∀ a, calculate_overlap_area g a a = g.area a)
    ∧ (∀ a b, 0 ≤ calculate_overlap_area g a b)
    ∧ (∀ a b, g.intersects a b = false → calculate_overlap_area g a b = 0) := by
  refine ⟨?_, ?_, ?_, ?_⟩
  · intro a b
    unfold calculate_overlap_area
    rw [hIs a b, hAs a b]
  · intro a
    unfold calculate_overlap_area
    rw [hSelf a]
    simp [hSelfArea a]
  · intro a b
    unfold calculate_overlap_area
    split
    · exact hAn a b
    · exact le_refl 0
  · intro a b h
    unfold calculate_overlap_area
    rw [h]
    simp

/-- A valid 2 by 2 rectangle at the origin. -/
def vr1 : VRect := ⟨{ xmin := 0, ymin := 0, xmax := 2, ymax := 2 }, by norm_num⟩

/-- A valid rectangle overlapping `vr1`. -/
def vr2 : VRect := ⟨{ xmin := 1, ymin := 1, xmax := 3, ymax := 4 }, by norm_num⟩

/-- A valid rectangle disjoint from `vr1`. -/
def vr3 : VRect := ⟨{ xmin := 5, ymin := 5, xmax := 6, ymax := 6 }, by norm_num⟩

/-- Witness for C9 at the valid-rectangle instantiation of the shapely
contract and concrete rectangles. -/
theorem C9_overlap_area_algebra_witness :
    calculate_overlap_area vrectBackend vr1 vr2 = calculate_overlap_area vrectBackend vr2 vr1
    ∧ calculate_overlap_area vrectBackend vr1 vr1 = vrectBackend.area vr1
    ∧ 0 ≤ calculate_overlap_area vrectBackend vr1 vr2
    ∧ vrectBackend.intersects vr1 vr3 = false
    ∧ calculate_overlap_area vrectBackend vr1 vr3 = 0 := by
  have h := C9_overlap_area_algebra vrectBackend vrect_intersects_symm vrect_interArea_symm
    vrect_interArea_nonneg vrect_intersects_self vrect_interArea_self
  exact ⟨h.1 vr1 vr2, h.2.1 vr1, h.2.2.1 vr1 vr2, by decide, h.2.2.2 vr1 vr3 (by decide)⟩

/-- Footprint of the first unit-square item of `feW` placed at
`(2, 2)` with rotation `0`. -/
def fpA : Rect :=
  ccW.create_furniture_polygon_wrapper { width := 1, depth := 1, rotatable := true } 2 2 0

/-- Footprint of the second unit-square item of `feW` placed at
`(2.995, 2)` with rotation `0`. -/
def fpB : Rect :=
  ccW.create_furniture_polygon_wrapper { width := 1, depth := 1, rotatable := true }
    (599/200) 2 0

/-- C10: the overlap predicate and the fitness penalty use different
thresholds.  At the concrete two-item layout `[(2,2,0), (2.995,2,0)]` in
the 10 by 10 room, the two footprints overlap with area `1/200` — strictly
positive but at most the `0.01` tolerance — so `check_overlap` is false
and `check_hard_constraints` holds for both items, yet
`calculate_fitness` penalizes the positive overlap and returns
`-5/2 < 0`. -/
theorem C10_threshold_mismatch :
    footprints feW [{ x := 2, y := 2, rot := 0 }, { x := 599/200, y := 2, rot := 0 }] =
      [fpA, fpB]
    ∧ 0 < calculate_overlap_area rectBackend fpA fpB
    ∧ calculate_overlap_area rectBackend fpA fpB ≤ 1/100
    ∧ ccW.check_overlap fpA [fpB] = false
    ∧ ccW.check_overlap fpB [fpA] = false
    ∧ ccW.check_hard_constraints fpA [fpB] = true
    ∧ ccW.check_hard_constraints fpB [fpA] = true
    ∧ calculate_fitness feW
        [{ x := 2, y := 2, rot := 0 }, { x := 599/200, y := 2, rot := 0 }] = -(5/2)
    ∧ calculate_fitness feW
        [{ x := 2, y := 2, rot := 0 }, { x := 599/200, y := 2, rot := 0 }] < 0 := by
  refine ⟨?_, ?_, ?_, ?_, ?_, ?_, ?_, ?_, ?_⟩ <;>
    norm_num [footprints, feW, ccW, fpA, fpB, roomW,
      ConstraintChecker.create_furniture_polygon_wrapper,
      ConstraintChecker.check_overlap, ConstraintChecker.check_boundary,
      ConstraintChecker.check_hard_constraints, check_containment,
      calculate_overlap_area, calculate_fitness, boundary_pass, overlap_pass,
      alignment_pass, rectBackend, Rect.mkFootprintR, Rect.intersectsR,
      Rect.interAreaR, Rect.containsR, Rect.centroidR, Rect.boundaryDistR,
      distance_to_wall, ConstraintChecker.get_nearest_wall_distance,
      max_def, min_def]

lemma boundary_pass_eq {α : Type} (cc : ConstraintChecker α) (polys : List α) :
    ∀ acc : ℚ, boundary_pass cc polys acc = acc + 1000 * (count_outside cc polys : ℚ) := by
  induction polys with
  | nil => intro acc; simp [boundary_pass, count_outside]
  | cons p rest ih =>
      intro acc
      by_cases h : cc.check_boundary p
      · have hstep : boundary_pass cc (p :: rest) acc = boundary_pass cc rest acc := by
          simp [boundary_pass, h]
        rw [hstep, ih acc]
        congr 2
        simp [count_outside, List.filter_cons, h]
      · have hstep : boundary_pass cc (p :: rest) acc = boundary_pass cc rest (acc + 1000) := by
          simp [boundary_pass, h]
        rw [hstep, ih (acc + 1000)]
        have hcnt : count_outside cc (p :: rest) = count_outside cc rest + 1 := by
          simp [count_outside, List.filter_cons, h]
        rw [hcnt]
        push_cast
        ring

lemma overlap_inner_eq {α : Type} (g : GeoBackend α) (p : α) (rest : List α) :
    ∀ acc : ℚ,
      rest.foldl
        (fun a other =>
          if 0 < calculate_overlap_area g p other
          then a + calculate_overlap_area g p other * 500 else a) acc =
      acc + 500 * (rest.map (fun other =>
        if 0 < calculate_overlap_area g p other
        then calculate_overlap_area g p other else 0)).sum := by
  induction rest with
  | nil => intro acc; simp
  | cons q rs ih =>
      intro acc
      by_cases h : 0 < calculate_overlap_area g p q
      · simp only [List.foldl_cons, List.map_cons, List.sum_cons, if_pos h]
        rw [ih (acc + calculate_overlap_area g p q * 500)]
        ring
      · simp only [List.foldl_cons, List.map_cons, List.sum_cons, if_neg h]
        rw [ih acc]
        ring

lemma overlap_pass_eq {α : Type} (g : GeoBackend α) (polys : List α) :
    ∀ acc : ℚ, overlap_pass g polys acc = acc + 500 * pairwise_pos_overlap_sum g polys := by
  induction polys with
  | nil => intro acc; simp [overlap_pass, pairwise_pos_overlap_sum]
  | cons p rest ih =>
      intro acc
      show overlap_pass g rest _ = _
      rw [ih _, overlap_inner_eq g p rest acc]
      rw [show pairwise_pos_overlap_sum g (p :: rest) =
        (rest.map (fun other =>
          if 0 < calculate_overlap_area g p other
          then calculate_overlap_area g p other else 0)).sum +
          pairwise_pos_overlap_sum g rest from rfl]
      ring

lemma alignment_fold_eq {α : Type} (cc : ConstraintChecker α) (polys : List α) :
    ∀ acc : ℚ,
      polys.foldl (fun a p => if cc.get_nearest_wall_distance p < 1/10 then a + 10 else a) acc =
        acc + 10 * (wall_close_count cc polys : ℚ) := by
  induction polys with
  | nil => intro acc; simp [wall_close_count]
  | cons p rest ih =>
      intro acc
      by_cases h : cc.get_nearest_wall_distance p < 1/10
      · simp only [List.foldl_cons, if_pos h]
        rw [ih (acc + 10)]
        have hcnt : wall_close_count cc (p :: rest) = wall_close_count cc rest + 1 := by
          unfold wall_close_count
          rw [List.filter_cons, if_pos (by simpa using h)]
          simp
        rw [hcnt]
        push_cast
        ring
      · simp only [List.foldl_cons, if_neg h]
        rw [ih acc]
        have hcnt : wall_close_count cc (p :: rest) = wall_close_count cc rest := by
          unfold wall_close_count
          rw [List.filter_cons, if_neg (by simpa using h)]
        rw [hcnt]

lemma alignment_pass_eq {α : Type} (cc : ConstraintChecker α) (polys : List α) :
    alignment_pass cc polys = 10 * (wall_close_count cc polys : ℚ) := by
  unfold alignment_pass
  rw [alignment_fold_eq cc polys 0]
  ring

/-- C2: for a layout with one placement per furniture item,
`calculate_fitness` equals the negated total penalty — `1000` per
footprint outside the room plus `500` times each strictly positive
pairwise overlap area — when that penalty is positive, and otherwise `10`
times the number of footprints whose centroid-to-boundary distance is
below `0.1`, a non-negative value. -/
theorem C2_fitness_characterization {α : Type} (fe : FitnessEvaluator α)
    (layout : List Placement) (h : layout.length = fe.furniture_items.length) :
    (calculate_fitness fe layout =
      if 0 < 1000 * (count_outside fe.constraints (footprints fe layout) : ℚ) +
            500 * pairwise_pos_overlap_sum fe.constraints.g (footprints fe layout)
      then -(1000 * (count_outside fe.constraints (footprints fe layout) : ℚ) +
             500 * pairwise_pos_overlap_sum fe.constraints.g (footprints fe layout))
      else 10 * (wall_close_count fe.constraints (footprints fe layout) : ℚ))
    ∧ (¬ 0 < 1000 * (count_outside fe.constraints (footprints fe layout) : ℚ) +
            500 * pairwise_pos_overlap_sum fe.constraints.g (footprints fe layout) →
        0 ≤ calculate_fitness fe layout) := by
  have hpen : overlap_pass fe.constraints.g (footprints fe layout)
      (boundary_pass fe.constraints (footprints fe layout) 0) =
      1000 * (count_outside fe.constraints (footprints fe layout) : ℚ) +
        500 * pairwise_pos_overlap_sum fe.constraints.g (footprints fe layout) := by
    rw [overlap_pass_eq, boundary_pass_eq]
    ring
  have hfit : calculate_fitness fe layout =
      if 0 < 1000 * (count_outside fe.constraints (footprints fe layout) : ℚ) +
            500 * pairwise_pos_overlap_sum fe.constraints.g (footprints fe layout)
      then -(1000 * (count_outside fe.constraints (footprints fe layout) : ℚ) +
             500 * pairwise_pos_overlap_sum fe.constraints.g (footprints fe layout))
      else 10 * (wall_close_count fe.constraints (footprints fe layout) : ℚ) := by
    unfold calculate_fitness
    simp only [hpen, alignment_pass_eq]
  refine ⟨hfit, ?_⟩
  intro hnp
  rw [hfit, if_neg hnp]
  positivity

/-- The two-item layout used for concrete evaluation. -/
def layoutW : List Placement :=
  [{ x := 2, y := 2, rot := 0 }, { x := 599/200, y := 2, rot := 0 }]

/-- Witness for C2 at the concrete two-item evaluator and layout. -/
theorem C2_fitness_characterization_witness :
    layoutW.length = feW.furniture_items.length
    ∧ ((calculate_fitness feW layoutW =
        if 0 < 1000 * (count_outside feW.constraints (footprints feW layoutW) : ℚ) +
              500 * pairwise_pos_overlap_sum feW.constraints.g (footprints feW layoutW)
        then -(1000 * (count_outside feW.constraints (footprints feW layoutW) : ℚ) +
               500 * pairwise_pos_overlap_sum feW.constraints.g (footprints feW layoutW))
        else 10 * (wall_close_count feW.constraints (footprints feW layoutW) : ℚ))
      ∧ (¬ 0 < 1000 * (count_outside feW.constraints (footprints feW layoutW) : ℚ) +
              500 * pairwise_pos_overlap_sum feW.constraints.g (footprints feW layoutW) →
          0 ≤ calculate_fitness feW layoutW)) :=
  ⟨by decide, C2_fitness_characterization feW layoutW (by decide)⟩

/-- C5: model-loading failure or absence leaves `ml_model` empty without
aborting construction (`mk_init` is total), and the score assigned to
every candidate of every evaluated population is the `0.7/0.3` blend of
the geometric fitness and the scaled model score when a model is loaded,
and exactly the geometric fitness when it is not. -/
theorem C5_hybrid_fitness_blend {α : Type} :
    (∀ (g : GeoBackend α) (room : α) (items : List FurnitureItem) (ps gens : Nat),
      (GeneticOptimizer.mk_init g room items ps gens MlLoadOutcome.fileMissing).ml_model = none
      ∧ (∀ s, (GeneticOptimizer.mk_init g room items ps gens
          (MlLoadOutcome.loadFailed s)).ml_model = none)
      ∧ (∀ m, (GeneticOptimizer.mk_init g room items ps gens
          (MlLoadOutcome.loaded m)).ml_model = some m))
    ∧ (∀ (o : GeneticOptimizer α) (population : List (List Placement)),
        evaluate_population o population = population.map (fun ind =>
          match o.ml_model with
          | some _ =>
              (7/10) * calculate_fitness o.evaluator ind +
                (3/10) * get_ml_score o.ml_model (o.g.area o.room_poly)
                  (o.max_x - o.min_x) (o.max_y - o.min_y) o.furniture_items.length ind
          | none => calculate_fitness o.evaluator ind)) := by
  constructor
  · intro g room items ps gens
    exact ⟨rfl, fun s => rfl, fun m => rfl⟩
  · intro o population
    unfold evaluate_population
    have hfun : ∀ ind, score_candidate o ind =
        (match o.ml_model with
        | some _ =>
            (7/10) * calculate_fitness o.evaluator ind +
              (3/10) * get_ml_score o.ml_model (o.g.area o.room_poly)
                (o.max_x - o.min_x) (o.max_y - o.min_y) o.furniture_items.length ind
        | none => calculate_fitness o.evaluator ind) := by
      intro ind
      cases homl : o.ml_model with
      | none => simp [score_candidate, homl]
      | some m =>
          simp [score_candidate, homl]
          ring
    exact List.map_congr_left (fun ind _ => hfun ind)

/-- C7 (counterexample): at a room of bounding box 4 by 2 (aspect ratio
2) with 1 door and 2 windows, the feature vector actually built
(`ml_features`, with hard-coded placeholders 1.0, 0.25, 0.25) differs
from the vector the claim describes (`ml_features_spec`, with the room's
aspect ratio and the door and window counts). -/
theorem C7_feature_vector_counterexample :
    ml_features 100 4 2 3 [{ x := 1, y := 1, rot := 0 }] ≠
      ml_features_spec 100 2 1 2 4 2 3 [{ x := 1, y := 1, rot := 0 }] := by
  norm_num [ml_features, ml_features_spec]

/-- C7 (amended): for a non-empty candidate, `_get_ml_score` with a
loaded model applies it to the fixed-order vector — room area / 50, then
the placeholder constants 1, 0.25 and 0.25 for aspect ratio, door count
and window count, furniture count / 20, and the average placement
position normalized by the positive bounding-box extents — and scales the
output by 100; with no model loaded it returns 0. -/
theorem C7_ml_score_amended (f : List ℚ → ℚ) (room_area width height : ℚ)
    (nF : Nat) (ind : List Placement) (h : ind ≠ []) :
    get_ml_score (some f) room_area width height nF ind =
      f [room_area / 50, 1, 1/4, 1/4, (nF : ℚ) / 20,
         if 0 < width then ((ind.map Placement.x).sum / (ind.length : ℚ)) / width else 0,
         if 0 < height then ((ind.map Placement.y).sum / (ind.length : ℚ)) / height else 0]
        * 100
    ∧ get_ml_score none room_area width height nF ind = 0 := by
  constructor
  · unfold get_ml_score ml_features
    simp [List.length_map]
  · rfl

/-- Witness for C7's amended theorem at a concrete model and candidate. -/
theorem C7_ml_score_amended_witness :
    ([({ x := 1, y := 2, rot := 0 } : Placement)] ≠ [])
    ∧ (get_ml_score (some List.sum) 100 4 2 3 [{ x := 1, y := 2, rot := 0 }] =
        List.sum [(100 : ℚ) / 50, 1, 1/4, 1/4, (3 : ℚ) / 20,
          if (0 : ℚ) < 4 then ((([({ x := 1, y := 2, rot := 0 } : Placement)].map
            Placement.x).sum / (([({ x := 1, y := 2, rot := 0 } : Placement)].length) : ℚ)) / 4)
          else 0,
          if (0 : ℚ) < 2 then ((([({ x := 1, y := 2, rot := 0 } : Placement)].map
            Placement.y).sum / (([({ x := 1, y := 2, rot := 0 } : Placement)].length) : ℚ)) / 2)
          else 0] * 100
      ∧ get_ml_score none 100 4 2 3 [{ x := 1, y := 2, rot := 0 }] = 0) :=
  ⟨by simp, C7_ml_score_amended List.sum 100 4 2 3 [{ x := 1, y := 2, rot := 0 }] (by simp)⟩

lemma fill_loop_min_length (pairAt : Nat → Option (List Placement × List Placement))
    (pop_size : Nat) :
    ∀ (fuel k : Nat) (acc l : List (List Placement)),
      fill_loop pairAt pop_size fuel k acc = some l → pop_size ≤ l.length := by
  intro fuel
  induction fuel with
  | zero =>
      intro k acc l h
      unfold fill_loop at h
      by_cases hc : acc.length < pop_size
      · rw [if_pos hc] at h
        exact absurd h (by simp)
      · rw [if_neg hc] at h
        injection h with h2
        subst h2
        omega
  | succ fuel ih =>
      intro k acc l h
      unfold fill_loop at h
      by_cases hc : acc.length < pop_size
      · rw [if_pos hc] at h
        cases hp : pairAt k with
        | none => rw [hp] at h; exact absurd h (by simp)
        | some c => rw [hp] at h; exact ih (k + 1) (acc ++ [c.1, c.2]) l h
      · rw [if_neg hc] at h
        injection h with h2
        subst h2
        omega

lemma fill_loop_members (pairAt : Nat → Option (List Placement × List Placement))
    (pop_size : Nat) :
    ∀ (fuel k : Nat) (acc l : List (List Placement)),
      fill_loop pairAt pop_size fuel k acc = some l →
      ∀ c ∈ l, c ∈ acc ∨ ∃ j p, pairAt j = some p ∧ (c = p.1 ∨ c = p.2) := by
  intro fuel
  induction fuel with
  | zero =>
      intro k acc l h c hc
      unfold fill_loop at h
      by_cases hlt : acc.length < pop_size
      · rw [if_pos hlt] at h
        exact absurd h (by simp)
      · rw [if_neg hlt] at h
        injection h with h2
        subst h2
        exact Or.inl hc
  | succ fuel ih =>
      intro k acc l h c hc
      unfold fill_loop at h
      by_cases hlt : acc.length < pop_size
      · rw [if_pos hlt] at h
        cases hp : pairAt k with
        | none => rw [hp] at h; exact absurd h (by simp)
        | some pr =>
            rw [hp] at h
            rcases ih (k + 1) (acc ++ [pr.1, pr.2]) l h c hc with hin | hex
            · rcases List.mem_append.mp hin with hin1 | hin2
              · exact Or.inl hin1
              · refine Or.inr ⟨k, pr, hp, ?_⟩
                rcases List.mem_cons.mp hin2 with h1 | h2
                · exact Or.inl h1
                · rcases List.mem_cons.mp h2 with h3 | h4
                  · exact Or.inr h3
                  · exact absurd h4 (by simp)
            · exact Or.inr hex
      · rw [if_neg hlt] at h
        injection h with h2
        subst h2
        exact Or.inl hc

/-- C8: the initial population has exactly `pop_size` candidates, and for
every generation whose replacement step returns (does not raise), the new
population has exactly `pop_size` candidates, each of which is a child
produced by some iteration of the selection/crossover/mutation loop (no
survivor carry-over from the previous population). -/
theorem C8_population_size_invariant {α : Type} (o : GeneticOptimizer α)
    (initDraws : Nat → Nat → InitDraw) :
    (init_population o initDraws).length = o.pop_size
    ∧ (∀ (population : List (List Placement)) (gd : PairDraws)
        (newPop : List (List Placement)),
        next_population o population gd = some newPop →
          newPop.length = o.pop_size
          ∧ ∀ c ∈ newPop, ∃ j p, make_pair o population gd j = some p ∧
              (c = p.1 ∨ c = p.2)) := by
  constructor
  · simp [init_population]
  · intro population gd newPop h
    unfold next_population at h
    rcases Option.map_eq_some'.mp h with ⟨l, hl, hnp⟩
    have hlen := fill_loop_min_length (make_pair o population gd) o.pop_size
      o.pop_size 0 [] l hl
    constructor
    · rw [← hnp, List.length_take]
      omega
    · intro c hc
      have hcl : c ∈ l := List.take_subset o.pop_size l (by rw [hnp]; exact hc)
      rcases fill_loop_members (make_pair o population gd) o.pop_size
        o.pop_size 0 [] l hl c hcl with hin | hex
      · exact absurd hin (by simp)
      · exact hex

/-- A concrete optimizer over the rectangle backend: two unit-square
items, population size 2, one generation, no model artifact. -/
def oW8 : GeneticOptimizer Rect :=
  GeneticOptimizer.mk_init rectBackend roomW
    [{ width := 1, depth := 1, rotatable := true },
     { width := 1, depth := 1, rotatable := true }]
    2 1 MlLoadOutcome.fileMissing

/-- A concrete two-candidate population for `oW8`. -/
def popW8 : List (List Placement) :=
  [[{ x := 1, y := 1, rot := 0 }, { x := 2, y := 2, rot := 0 }],
   [{ x := 3, y := 3, rot := 0 }, { x := 4, y := 4, rot := 0 }]]

/-- Concrete replacement-loop draws: parents 0 and 1, cut 1, and mutation
gates that never fire. -/
def gdW8 : PairDraws :=
  { sel1 := fun _ => 0, sel2 := fun _ => 1, cut := fun _ => 1,
    mutA := fun _ _ => { gate := 1, dx := 0, dy := 0, rgate := 1, rot := 0 },
    mutB := fun _ _ => { gate := 1, dx := 0, dy := 0, rgate := 1, rot := 0 } }

/-- Witness for C8: the concrete replacement step returns a population of
exactly `pop_size` children. -/
theorem C8_population_size_invariant_witness :
    next_population oW8 popW8 gdW8 =
      some [[{ x := 1, y := 1, rot := 0 }, { x := 4, y := 4, rot := 0 }],
            [{ x := 3, y := 3, rot := 0 }, { x := 2, y := 2, rot := 0 }]]
    ∧ ([[({ x := 1, y := 1, rot := 0 } : Placement), { x := 4, y := 4, rot := 0 }],
        [{ x := 3, y := 3, rot := 0 }, { x := 2, y := 2, rot := 0 }]] :
        List (List Placement)).length = oW8.pop_size := by
  have heval : next_population oW8 popW8 gdW8 =
      some [[{ x := 1, y := 1, rot := 0 }, { x := 4, y := 4, rot := 0 }],
            [{ x := 3, y := 3, rot := 0 }, { x := 2, y := 2, rot := 0 }]] := by
    norm_num [next_population, fill_loop, make_pair, select_parent, randint, crossover,
      mutate, oW8, popW8, gdW8, GeneticOptimizer.mk_init, init_ml_model]
  exact ⟨heval,
    ((C8_population_size_invariant oW8 (fun _ _ => { x := 0, y := 0, rot := 0 })).2
      popW8 gdW8 _ heval).1⟩
